import Mathlib

/-!
Shallow embedding of the BUKI IoT movement server (Express/Node.js).

The repository holds about a dozen near-duplicate server variants.  Each
variant keeps an in-memory session store (token -> {x, y, ts, history}),
accepts motion updates from a phone, and serves smoothed/scaled readings
to a polling client.  This file embeds the session store, the update
(smoothing) pipeline, the range mappers and the read handlers of the
variants the claims cite, and proves or refutes each claim.

JavaScript numbers are modelled by `JSNum`: the IEEE-754 special values
NaN, +Infinity and -Infinity are explicit constructors, and every finite
double is modelled as an exact rational.  All arithmetic the server
performs (comparison, min/max, addition, multiplication and division by
literals, rounding) is exact on the values the claims exercise, so the
rational model is faithful there; the one irrational operation,
`Math.pow(|n|, 0.5)` in the curved scale mapper, is abstracted by a
function parameter `s : ℚ → ℚ` and every theorem about that mapper holds
for an arbitrary `s`.
-/

/- Batteries marks rational arithmetic `@[irreducible]` for performance;
the concrete evaluations below (witnesses and counterexamples run the
embedded handlers on explicit stores) need it to reduce. -/
set_option allowUnsafeReducibility true
attribute [local semireducible] Rat.add Rat.mul Rat.inv Rat.sub

/-- A JavaScript number: NaN, +Infinity, -Infinity, or a finite value
(modelled as an exact rational). -/
inductive JSNum where
  | nan : JSNum
  | inf : JSNum
  | ninf : JSNum
  | fin : ℚ → JSNum
deriving DecidableEq

/-- JavaScript `Math.min` of two numbers: NaN if either argument is NaN. -/
def jmin : JSNum → JSNum → JSNum
  | JSNum.nan, _ => JSNum.nan
  | _, JSNum.nan => JSNum.nan
  | JSNum.inf, b => b
  | JSNum.ninf, _ => JSNum.ninf
  | JSNum.fin _, JSNum.ninf => JSNum.ninf
  | JSNum.fin a, JSNum.inf => JSNum.fin a
  | JSNum.fin a, JSNum.fin b => JSNum.fin (min a b)

/-- JavaScript `Math.max` of two numbers: NaN if either argument is NaN. -/
def jmax : JSNum → JSNum → JSNum
  | JSNum.nan, _ => JSNum.nan
  | _, JSNum.nan => JSNum.nan
  | JSNum.ninf, b => b
  | JSNum.inf, _ => JSNum.inf
  | JSNum.fin _, JSNum.inf => JSNum.inf
  | JSNum.fin a, JSNum.ninf => JSNum.fin a
  | JSNum.fin a, JSNum.fin b => JSNum.fin (max a b)

/-- JavaScript `Math.abs`. -/
def jabs : JSNum → JSNum
  | JSNum.nan => JSNum.nan
  | JSNum.inf => JSNum.inf
  | JSNum.ninf => JSNum.inf
  | JSNum.fin q => JSNum.fin |q|

/-- JavaScript `Math.sign`. -/
def jsign : JSNum → JSNum
  | JSNum.nan => JSNum.nan
  | JSNum.inf => JSNum.fin 1
  | JSNum.ninf => JSNum.fin (-1)
  | JSNum.fin q => JSNum.fin (if q < 0 then -1 else if q = 0 then 0 else 1)

/-- JavaScript `+` on two numbers: NaN propagates, and the indeterminate
form `Infinity + (-Infinity)` is NaN. -/
def jadd : JSNum → JSNum → JSNum
  | JSNum.nan, _ => JSNum.nan
  | _, JSNum.nan => JSNum.nan
  | JSNum.inf, JSNum.ninf => JSNum.nan
  | JSNum.ninf, JSNum.inf => JSNum.nan
  | JSNum.inf, _ => JSNum.inf
  | _, JSNum.inf => JSNum.inf
  | JSNum.ninf, _ => JSNum.ninf
  | _, JSNum.ninf => JSNum.ninf
  | JSNum.fin a, JSNum.fin b => JSNum.fin (a + b)

/-- JavaScript `*` on two numbers: NaN propagates, and the indeterminate
form `0 * Infinity` is NaN. -/
def jmul : JSNum → JSNum → JSNum
  | JSNum.nan, _ => JSNum.nan
  | _, JSNum.nan => JSNum.nan
  | JSNum.inf, JSNum.inf => JSNum.inf
  | JSNum.inf, JSNum.ninf => JSNum.ninf
  | JSNum.ninf, JSNum.inf => JSNum.ninf
  | JSNum.ninf, JSNum.ninf => JSNum.inf
  | JSNum.inf, JSNum.fin b =>
      if b = 0 then JSNum.nan else if 0 < b then JSNum.inf else JSNum.ninf
  | JSNum.fin a, JSNum.inf =>
      if a = 0 then JSNum.nan else if 0 < a then JSNum.inf else JSNum.ninf
  | JSNum.ninf, JSNum.fin b =>
      if b = 0 then JSNum.nan else if 0 < b then JSNum.ninf else JSNum.inf
  | JSNum.fin a, JSNum.ninf =>
      if a = 0 then JSNum.nan else if 0 < a then JSNum.ninf else JSNum.inf
  | JSNum.fin a, JSNum.fin b => JSNum.fin (a * b)

/-- Addition of a finite literal constant (`v + c`); every constant added
in the source is a finite literal. -/
def jaddC : JSNum → ℚ → JSNum
  | JSNum.nan, _ => JSNum.nan
  | JSNum.inf, _ => JSNum.inf
  | JSNum.ninf, _ => JSNum.ninf
  | JSNum.fin q, c => JSNum.fin (q + c)

/-- Multiplication by a positive finite literal constant (`v * c`).  Every
multiplying constant in the source (8, 1.33, 1.0, 0.8, 1.2, 1.5) is a
positive literal, for which these infinity rules are exact. -/
def jmulC : JSNum → ℚ → JSNum
  | JSNum.nan, _ => JSNum.nan
  | JSNum.inf, _ => JSNum.inf
  | JSNum.ninf, _ => JSNum.ninf
  | JSNum.fin q, c => JSNum.fin (q * c)

/-- Division by a positive finite literal constant (`v / c`).  Every
dividing constant in the source (10, 2, 16, 20) is a positive literal,
for which these infinity rules are exact. -/
def jdivC : JSNum → ℚ → JSNum
  | JSNum.nan, _ => JSNum.nan
  | JSNum.inf, _ => JSNum.inf
  | JSNum.ninf, _ => JSNum.ninf
  | JSNum.fin q, c => JSNum.fin (q / c)

/-- Division by an array length (`sum / history.length`).  The length is
never 0 at a division site (the history has just been pushed to), so the
`0` case is unreachable; it is mapped to NaN. -/
def jdivNat : JSNum → ℕ → JSNum
  | _, 0 => JSNum.nan
  | JSNum.nan, _ => JSNum.nan
  | JSNum.inf, _ => JSNum.inf
  | JSNum.ninf, _ => JSNum.ninf
  | JSNum.fin q, n => JSNum.fin (q / n)

/-- The floor of a rational as an integer, computably: floor division of
the numerator by the (positive) denominator. -/
def qfloor (q : ℚ) : ℤ :=
  q.num.fdiv (q.den : ℤ)

/-- JavaScript `Math.round`: round half toward positive infinity. -/
def jround : JSNum → JSNum
  | JSNum.nan => JSNum.nan
  | JSNum.inf => JSNum.inf
  | JSNum.ninf => JSNum.ninf
  | JSNum.fin q => JSNum.fin ((qfloor (q + 1 / 2) : ℤ) : ℚ)

/-- The composite `Math.pow(Math.abs(v), 0.5)` from the curved mappers.
The base `|v|` is non-negative, so on a finite value the result is the
square root of `|q|`; the exact square root of a rational is irrational
in general, so it is abstracted by the parameter `s : ℚ → ℚ` and every
theorem about the curved mapper holds for an arbitrary `s`.  The special
cases follow the JavaScript specification: `pow(|NaN|, 0.5) = NaN` and
`pow(|±Infinity|, 0.5) = Infinity`. -/
def jpowHalfAbs (s : ℚ → ℚ) : JSNum → JSNum
  | JSNum.nan => JSNum.nan
  | JSNum.inf => JSNum.inf
  | JSNum.ninf => JSNum.inf
  | JSNum.fin q => JSNum.fin (s |q|)

/-- JavaScript `isNaN` on an already-parsed number. -/
def jIsNaN : JSNum → Bool
  | JSNum.nan => true
  | _ => false

/-- JavaScript `v > c` for a finite literal `c`: false when `v` is NaN. -/
def jgtC : JSNum → ℚ → Bool
  | JSNum.nan, _ => false
  | JSNum.inf, _ => true
  | JSNum.ninf, _ => false
  | JSNum.fin q, c => decide (c < q)

/-- JavaScript truthiness of a number: NaN and 0 are falsy. -/
def jtruthy : JSNum → Bool
  | JSNum.nan => false
  | JSNum.fin q => decide (q ≠ 0)
  | _ => true

/-- The `parseFloat(x) || 0` idiom: the parsed value, or 0 when the parsed
value is falsy (NaN or 0). -/
def parseOr0 (v : JSNum) : JSNum :=
  if jtruthy v then v else JSNum.fin 0

/-- The `reduce((sum, sample) => sum + sample, 0)` accumulation. -/
def jsumFold (l : List JSNum) : JSNum :=
  l.foldl jadd (JSNum.fin 0)

/-- JavaScript `String(v)` for the values that reach the response
formatters: the special values print as `NaN` / `Infinity` / `-Infinity`,
and an integer-valued number prints its decimal digits.  Every finite
value the formatters receive is integer-valued (the scale mappers round
and clamp), so the non-integer fallback branch is unreachable. -/
def jsStr : JSNum → String
  | JSNum.nan => "NaN"
  | JSNum.inf => "Infinity"
  | JSNum.ninf => "-Infinity"
  | JSNum.fin q => if q.den = 1 then toString q.num else toString q.num ++ "?"

/-- JavaScript `String.prototype.padStart(2, '0')`. -/
def padStart2 (str : String) : String :=
  if str.length < 2 then String.mk (List.replicate (2 - str.length) '0') ++ str
  else str

/-- Decidable check that a string consists of exactly two decimal digits. -/
def isTwoDigits (str : String) : Bool :=
  match str.data with
  | [a, b] => a.isDigit && b.isDigit
  | _ => false

/-- Decidable check for the documented `/simple` body contract: exactly six
characters matching `X\d\dY\d\d`. -/
def isXYFormat (str : String) : Bool :=
  match str.data with
  | ['X', a, b, 'Y', c, d] => a.isDigit && b.isDigit && c.isDigit && d.isDigit
  | _ => false

/-- Decidable check that a JavaScript number is an integer in `{1,...,9}`
(in particular it is neither 0 nor 10, and is not NaN or infinite). -/
def inScale19 : JSNum → Bool
  | JSNum.fin q => decide (q.den = 1) && decide (1 ≤ q) && decide (q ≤ 9)
  | _ => false

/-- A stored session record.  The fields mirror the object the servers
keep per token: the smoothed (or raw) motion estimate `x`/`y`, the
last-update timestamp `ts`, the bounded smoothing `history`, and the
accepted-update counter.  Variants that keep no history (part_003) leave
`history` empty, and ancillary health fields are omitted (no claim reads
them). -/
structure Session where
  x : JSNum
  y : JSNum
  ts : ℤ
  history : List (JSNum × JSNum)
  updateCount : ℕ
deriving DecidableEq

/-- The in-memory session store: a map from token to session. -/
def Store : Type := String → Option Session

/-- The curved scale mapper of index.js (first server, lines 370-376):
clamp to ±10, normalise to [-1, 1], apply the square-root response curve,
map to 1-9 and clamp.  `s` abstracts `Math.pow(|n|, 0.5)` (see
`jpowHalf`). -/
def mapToScale_v1 (s : ℚ → ℚ) (velocity : JSNum) : JSNum :=
  let clamped := jmax (JSNum.fin (-10)) (jmin (JSNum.fin 10) velocity)
  let normalized := jdivC clamped 10
  let curved := jmul (jsign normalized) (jpowHalfAbs s normalized)
  let scaled := jadd (jround (jmulC (jdivC (jaddC curved 1) 2) 8)) (JSNum.fin 1)
  jmax (JSNum.fin 1) (jmin (JSNum.fin 9) scaled)

/-- The curved scale mapper of part_001 (second server, lines 472-478);
its text is identical to `mapToScale_v1`. -/
def mapToScale_p1b (s : ℚ → ℚ) (velocity : JSNum) : JSNum :=
  let clamped := jmax (JSNum.fin (-10)) (jmin (JSNum.fin 10) velocity)
  let normalized := jdivC clamped 10
  let curved := jmul (jsign normalized) (jpowHalfAbs s normalized)
  let scaled := jadd (jround (jmulC (jdivC (jaddC curved 1) 2) 8)) (JSNum.fin 1)
  jmax (JSNum.fin 1) (jmin (JSNum.fin 9) scaled)

/-- The linear scale mapper of part_003 (lines 183-188): clamp to ±10,
normalise, map linearly to 1-9 and clamp. -/
def mapToScale_p3 (velocity : JSNum) : JSNum :=
  let clamped := jmax (JSNum.fin (-10)) (jmin (JSNum.fin 10) velocity)
  let normalized := jdivC clamped 10
  let scaled := jadd (jround (jmulC (jdivC (jaddC normalized 1) 2) 8)) (JSNum.fin 1)
  jmax (JSNum.fin 1) (jmin (JSNum.fin 9) scaled)

/-- The linear scale mapper of part_004 (lines 239-245): clamp to ±8, map
`-8..+8` to 1-9 and clamp. -/
def mapToScale_p4 (velocity : JSNum) : JSNum :=
  let clamped := jmax (JSNum.fin (-8)) (jmin (JSNum.fin 8) velocity)
  let scaled := jadd (jround (jmulC (jdivC (jaddC clamped 8) 16) 8)) (JSNum.fin 1)
  jmax (JSNum.fin 1) (jmin (JSNum.fin 9) scaled)

/-- The linear full-range scale mapper of part_000 (lines 374-385): clamp
to ±20, normalise by 20, map linearly to 1-9 and clamp. -/
def mapToScale_p0 (velocity : JSNum) : JSNum :=
  let clamped := jmax (JSNum.fin (-20)) (jmin (JSNum.fin 20) velocity)
  let normalized := jdivC clamped 20
  let scaled := jadd (jround (jmulC (jdivC (jaddC normalized 1) 2) 8)) (JSNum.fin 1)
  jmax (JSNum.fin 1) (jmin (JSNum.fin 9) scaled)

/-- The scale computation of index.js (second server, lines 684-685):
`Math.max(1, Math.min(9, Math.round(session.x * 1.33) + 5))`.  The literal
1.33 is modelled by the rational 133/100 (the difference from its double
value cannot affect any claim: the result is rounded and clamped). -/
def scaleV2 (v : JSNum) : JSNum :=
  jmax (JSNum.fin 1) (jmin (JSNum.fin 9) (jaddC (jround (jmulC v (133 / 100))) 5))

/-- The `/simple` TTL comparison of index.js (first server, line 349):
`sessionAge > 60000`. -/
def simpleTtlExpiredV1 (now ts : ℤ) : Bool :=
  decide (now - ts > 60000)

/-- The `/x` TTL comparison of index.js (first server, line 268):
`timestamp - session.ts > 60000`. -/
def xTtlExpiredV1 (now ts : ℤ) : Bool :=
  decide (now - ts > 60000)

/-- The `/y` TTL comparison of index.js (first server, line 305):
`timestamp - session.ts > 60000`. -/
def yTtlExpiredV1 (now ts : ℤ) : Bool :=
  decide (now - ts > 60000)

/-- The `/latest` liveness comparison of index.js (fourth server, line
976): `Date.now() - session.ts < 30000`. -/
def latestTtlLiveV4 (now ts : ℤ) : Bool :=
  decide (now - ts < 30000)

/-- The `/simple/:token` handler of index.js (first server, lines
324-392), as a function of the store, the token and the current time;
the result is (body, HTTP status).  Absent or expired sessions return the
center sentinel with status 200; otherwise the extreme-value guard
(either axis beyond ±12 centers both axes) runs and the curved mapper
formats `X##Y##`. -/
def simpleV1 (s : ℚ → ℚ) (store : Store) (token : String) (now : ℤ) : String × ℕ :=
  match store token with
  | none => ("X05Y05", 200)
  | some sess =>
    if simpleTtlExpiredV1 now sess.ts then ("X05Y05", 200)
    else
      let extreme := jgtC (jabs sess.x) 12 || jgtC (jabs sess.y) 12
      let validX := if extreme then JSNum.fin 0 else sess.x
      let validY := if extreme then JSNum.fin 0 else sess.y
      ("X" ++ padStart2 (jsStr (mapToScale_v1 s validX)) ++
       "Y" ++ padStart2 (jsStr (mapToScale_v1 s validY)), 200)

/-- The catch handler of the same endpoint (index.js lines 393-397): any
internal fault answers status 200 with the center sentinel. -/
def simpleV1_onFault : String × ℕ := ("X05Y05", 200)

/-- The `/simple/:token` handler of part_001 (second server, lines
454-486): identical computation to `simpleV1`. -/
def simpleP1b (s : ℚ → ℚ) (store : Store) (token : String) (now : ℤ) : String × ℕ :=
  match store token with
  | none => ("X05Y05", 200)
  | some sess =>
    if simpleTtlExpiredV1 now sess.ts then ("X05Y05", 200)
    else
      let extreme := jgtC (jabs sess.x) 12 || jgtC (jabs sess.y) 12
      let validX := if extreme then JSNum.fin 0 else sess.x
      let validY := if extreme then JSNum.fin 0 else sess.y
      ("X" ++ padStart2 (jsStr (mapToScale_p1b s validX)) ++
       "Y" ++ padStart2 (jsStr (mapToScale_p1b s validY)), 200)

/-- The catch handler of part_001's second `/simple` endpoint (lines
487-490): an internal fault answers status 200 with the body `X07Y07`,
not the center sentinel. -/
def simpleP1b_onFault : String × ℕ := ("X07Y07", 200)

/-- The `/simple/:token` handler of index.js (second server, lines
677-692): absent or expired sessions return the center sentinel, and the
computed path formats with the `X0${xScaled}Y0${yScaled}` template. -/
def simpleV2 (store : Store) (token : String) (now : ℤ) : String × ℕ :=
  match store token with
  | none => ("X05Y05", 200)
  | some sess =>
    if decide (now - sess.ts > 60000) then ("X05Y05", 200)
    else
      ("X0" ++ jsStr (scaleV2 sess.x) ++ "Y0" ++ jsStr (scaleV2 sess.y), 200)

/-- The catch handler of the same endpoint (index.js lines 688-691). -/
def simpleV2_onFault : String × ℕ := ("X05Y05", 200)

/-- The `/simple/:token` handler of part_003 (lines 165-196): 180-second
TTL, extreme-value guard at ±15 (centering both axes), linear mapper. -/
def simpleP3 (store : Store) (token : String) (now : ℤ) : String × ℕ :=
  match store token with
  | none => ("X05Y05", 200)
  | some sess =>
    if decide (now - sess.ts > 180000) then ("X05Y05", 200)
    else
      let extreme := jgtC (jabs sess.x) 15 || jgtC (jabs sess.y) 15
      let validX := if extreme then JSNum.fin 0 else sess.x
      let validY := if extreme then JSNum.fin 0 else sess.y
      ("X" ++ padStart2 (jsStr (mapToScale_p3 validX)) ++
       "Y" ++ padStart2 (jsStr (mapToScale_p3 validY)), 200)

/-- The `/simple/:token` handler of part_000 (lines 328-401): 60-second
TTL; the extreme-value guard (lines 362-371) CLAMPS both axes to ±25
instead of centering them, then the ±20 linear mapper runs. -/
def simpleP0 (store : Store) (token : String) (now : ℤ) : String × ℕ :=
  match store token with
  | none => ("X05Y05", 200)
  | some sess =>
    if decide (now - sess.ts > 60000) then ("X05Y05", 200)
    else
      let extreme := jgtC (jabs sess.x) 25 || jgtC (jabs sess.y) 25
      let validX := if extreme then jmax (JSNum.fin (-25)) (jmin (JSNum.fin 25) sess.x)
                    else sess.x
      let validY := if extreme then jmax (JSNum.fin (-25)) (jmin (JSNum.fin 25) sess.y)
                    else sess.y
      ("X" ++ padStart2 (jsStr (mapToScale_p0 validX)) ++
       "Y" ++ padStart2 (jsStr (mapToScale_p0 validY)), 200)

/-- An update-request failure, following the spec's error taxonomy.
`missingToken` is the index.js first server's distinct 400 response for a
request that carries no token (a falsy token value). -/
inductive UpdErr where
  | missingToken : UpdErr
  | invalidToken : UpdErr
  | invalidMotionData : UpdErr
deriving DecidableEq

/-- The zero-initialized session the `/start` handler of index.js (first
server, lines 110-123) inserts. -/
def startSessionV1 (now : ℤ) : Session :=
  ⟨JSNum.fin 0, JSNum.fin 0, now, [], 0⟩

/-- The zero-initialized session the `/start` handler of part_003 (lines
74-78) inserts. -/
def startSessionP3 (now : ℤ) : Session :=
  ⟨JSNum.fin 0, JSNum.fin 0, now, [], 0⟩

/-- The smoothing block shared by the index.js and part_001 update
handlers: push the sample onto the history, keep the last 3 samples,
average each axis arithmetically, refresh `ts`, bump the counter. -/
def smoothedSession (sess : Session) (xp yp : JSNum) (now : ℤ) : Session :=
  let pushed := sess.history ++ [(xp, yp)]
  let hist := if pushed.length > 3 then pushed.tail else pushed
  ⟨jdivNat (jsumFold (hist.map Prod.fst)) hist.length,
   jdivNat (jsumFold (hist.map Prod.snd)) hist.length,
   now, hist, sess.updateCount + 1⟩

/-- The `POST /update` handler of index.js (first server, lines 157-247)
as a store transformer.  `xp`/`yp` are the already-parsed `parseFloat`
results of the request's x and y.  A falsy token is rejected as missing;
an unknown token as invalid; x or y parsing as NaN as invalid motion
data (note `isNaN` lets `Infinity` through).  Otherwise the sample is
pushed onto the 3-sample FIFO history, the simple moving average becomes
the new x/y, and `ts` is refreshed to `now` — with no check of the
session's age. -/
def updateOpV1 (store : Store) (token : String) (xp yp : JSNum) (now : ℤ) :
    Store × Except UpdErr Session :=
  if token = "" then (store, Except.error UpdErr.missingToken)
  else
    match store token with
    | none => (store, Except.error UpdErr.invalidToken)
    | some sess =>
      if jIsNaN xp || jIsNaN yp then (store, Except.error UpdErr.invalidMotionData)
      else
        let sess' := smoothedSession sess xp yp now
        (fun t => if t = token then some sess' else store t, Except.ok sess')

/-- The `POST /update` handler of part_001 (first server, lines 116-161):
a falsy or unknown token is rejected as invalid; there is NO motion-data
validation — `parseFloat(x) || 0` silently coerces a non-numeric x or y
to 0 — then the same 3-sample moving average as index.js runs. -/
def updateOpP1 (store : Store) (token : String) (xp yp : JSNum) (now : ℤ) :
    Store × Except UpdErr Session :=
  if token = "" then (store, Except.error UpdErr.invalidToken)
  else
    match store token with
    | none => (store, Except.error UpdErr.invalidToken)
    | some sess =>
      let sess' := smoothedSession sess (parseOr0 xp) (parseOr0 yp) now
      (fun t => if t = token then some sess' else store t, Except.ok sess')

/-- The `POST /update` handler of part_003 (lines 89-130): a falsy or
unknown token is rejected; otherwise the `parseFloat(x) || 0` values are
stored raw (no smoothing) and `ts` is refreshed. -/
def updateOpP3 (store : Store) (token : String) (xp yp : JSNum) (now : ℤ) :
    Store × Except UpdErr Session :=
  if token = "" then (store, Except.error UpdErr.invalidToken)
  else
    match store token with
    | none => (store, Except.error UpdErr.invalidToken)
    | some _ =>
      let sess' : Session := ⟨parseOr0 xp, parseOr0 yp, now, [], 0⟩
      (fun t => if t = token then some sess' else store t, Except.ok sess')

/-- The periodic sweep of index.js (first server, lines 54-70): every
session whose age exceeds 120000 ms is deleted. -/
def sweepV1 (store : Store) (now : ℤ) : Store :=
  fun t =>
    match store t with
    | none => none
    | some sess => if decide (now - sess.ts > 120000) then none else some sess

/-- Token generation of index.js second server / part_003 (lines 560-564
resp. 67-71): eight characters, each drawn by index from the ambiguity-free
alphabet (no 0, 1, O, I or l). -/
def clearCharsFull : List Char :=
  "23456789ABCDEFGHJKLMNPQRSTUVWXYZabcdefghijkmnpqrstuvwxyz".data

/-- Token generation of index.js first server / part_000 (lines 103-107):
the digits-only (numpad friendly) alphabet. -/
def clearCharsDigits : List Char :=
  "23456789".data

/-- The token-generation loop: eight `charAt(floor(random * length))`
picks from an alphabet, concatenated.  `pick` gives the eight random
in-range indices. -/
def genToken (alphabet : List Char) (pick : Fin 8 → Fin alphabet.length) : String :=
  String.mk ((List.finRange 8).map (fun i => alphabet.get (pick i)))

/-- The smoothing step of index.js first server's `/update` (lines
199-207), one axis pair, over exact rationals: push the sample, drop the
oldest beyond 3, and average each axis arithmetically.  Returns the new
history and the new filtered (x, y). -/
def smaStepV1 (history : List (ℚ × ℚ)) (x y : ℚ) : List (ℚ × ℚ) × ℚ × ℚ :=
  let pushed := history ++ [(x, y)]
  let hist := if pushed.length > 3 then pushed.tail else pushed
  let avgX := ((hist.map Prod.fst).foldl (· + ·) 0) / (hist.length : ℚ)
  let avgY := ((hist.map Prod.snd).foldl (· + ·) 0) / (hist.length : ℚ)
  (hist, avgX, avgY)

/-- The quadratically weighted accumulation of index.js second server's
`/update` (lines 616-625): `weightedX += sample * (index+1)^2` starting at
index `i`. -/
def wSumAux (i : ℕ) : List ℚ → ℚ
  | [] => 0
  | a :: t => a * (((i : ℚ) + 1) * ((i : ℚ) + 1)) + wSumAux (i + 1) t

/-- The matching total-weight accumulation (`totalWeight += weight`). -/
def wTotalAux (i : ℕ) : List ℚ → ℚ
  | [] => 0
  | _ :: t => (((i : ℚ) + 1) * ((i : ℚ) + 1)) + wTotalAux (i + 1) t

/-- The smoothing step of index.js second server's `/update` (lines
593-628) over exact rationals: an incoming sample deviating by more than
5 from the last stored sample is blended (`0.6 * last + 0.4 * new`)
before being pushed; the history keeps the last 8 samples; the filtered
value is the quadratically weighted average of the stored samples. -/
def wmaStepV2 (history : List (ℚ × ℚ)) (x y : ℚ) : List (ℚ × ℚ) × ℚ × ℚ :=
  let pushed :=
    match history.getLast? with
    | none => history ++ [(x, y)]
    | some last =>
      let fx := if |x - last.1| > 5 then last.1 * (6 / 10) + x * (4 / 10) else x
      let fy := if |y - last.2| > 5 then last.2 * (6 / 10) + y * (4 / 10) else y
      history ++ [(fx, fy)]
  let hist := if pushed.length > 8 then pushed.tail else pushed
  let avgX := wSumAux 0 (hist.map Prod.fst) / wTotalAux 0 (hist.map Prod.fst)
  let avgY := wSumAux 0 (hist.map Prod.snd) / wTotalAux 0 (hist.map Prod.snd)
  (hist, avgX, avgY)

/-- Minimum of a nonempty list of rationals (0 for the empty list, which
no claim reaches: the history has just been pushed to). -/
def listMinQ : List ℚ → ℚ
  | [] => 0
  | a :: t => t.foldl min a

/-- Maximum of a nonempty list of rationals. -/
def listMaxQ : List ℚ → ℚ
  | [] => 0
  | a :: t => t.foldl max a

/-- Both stored axis values of a looked-up session are non-NaN (trivially
true for an absent token). -/
def sessionNumsOk : Option Session → Bool
  | none => true
  | some sess => !(jIsNaN sess.x) && !(jIsNaN sess.y)

/-- A token character is alphanumeric and is none of the visually
ambiguous characters 0, 1, O, I, l. -/
def tokenCharOk (c : Char) : Bool :=
  c.isAlphanum && decide (c ∉ ['0', '1', 'O', 'I', 'l'])

/-- A one-session store as `/start` of index.js (first server) leaves it:
the freshly created zero state under a generated token. -/
def nanDemoStore0 : Store :=
  fun t => if t = "AAAA2222" then some (startSessionV1 0) else none

/-- The store after an accepted update whose x parses to `Infinity`
(`parseFloat("Infinity")` is Infinity and `isNaN(Infinity)` is false, so
index.js's validation accepts it). -/
def nanDemoStore1 : Store :=
  (updateOpV1 nanDemoStore0 "AAAA2222" JSNum.inf (JSNum.fin 0) 0).1

/-- The store after a further accepted update whose x parses to
`-Infinity`: the smoothing average computes `Infinity + (-Infinity) = NaN`
and stores NaN as the session's x. -/
def nanDemoStore2 : Store :=
  (updateOpV1 nanDemoStore1 "AAAA2222" JSNum.ninf (JSNum.fin 0) 0).1

/-- A one-session part_003 store as its `/start` leaves it. -/
def scenarioP3Store0 : Store :=
  fun t => if t = "BBBB2222" then some (startSessionP3 0) else none

/-- The part_003 store after `update(token, 10, -10)`. -/
def scenarioP3Store1 : Store :=
  (updateOpP3 scenarioP3Store0 "BBBB2222" (JSNum.fin 10) (JSNum.fin (-10)) 0).1

/-- A part_000 store holding a session whose x (30) exceeds that
variant's ±25 sanity bound. -/
def extremeP0Store : Store :=
  fun t =>
    if t = "CCCC2222" then some (⟨JSNum.fin 30, JSNum.fin 0, 0, [], 0⟩ : Session)
    else none

/-- A one-session part_001 store as its `/start` leaves it. -/
def coerceP1Store : Store :=
  fun t => if t = "DDDD2222" then some (startSessionV1 0) else none

/-- A live session with small finite values, for witnesses. -/
def witnessStoreA : Store :=
  fun t =>
    if t = "EEEE2222" then some (⟨JSNum.fin 2, JSNum.fin 3, 0, [], 0⟩ : Session)
    else none

/-- A live session whose x (20) exceeds the ±15 and ±12 sanity bounds,
for the extreme-value-guard witness. -/
def witnessStoreB : Store :=
  fun t =>
    if t = "FFFF2222" then some (⟨JSNum.fin 20, JSNum.fin 0, 0, [], 0⟩ : Session)
    else none

/-- A live session whose x (13) exceeds index.js's ±12 sanity bound but
not part_003's ±15 bound, for the extreme-value-guard witness. -/
def witnessStoreD : Store :=
  fun t =>
    if t = "HHHH2222" then some (⟨JSNum.fin 13, JSNum.fin 0, 0, [], 0⟩ : Session)
    else none

/-- A session last updated at time 0, read at time 90000: stale for the
60-second read TTL but not yet sweepable at the 120-second sweep TTL. -/
def witnessStoreC : Store :=
  fun t =>
    if t = "GGGG2222" then some (⟨JSNum.fin 1, JSNum.fin 2, 0, [], 0⟩ : Session)
    else none

/-! ## Helper lemmas -/

lemma jIsNaN_false_iff (v : JSNum) : jIsNaN v = false ↔ v ≠ JSNum.nan := by
  cases v <;> simp [jIsNaN]

lemma jgtC_mono_15_12 (v : JSNum) (h : jgtC v 15 = true) : jgtC v 12 = true := by
  cases v with
  | nan => simp [jgtC] at h
  | inf => rfl
  | ninf => simp [jgtC] at h
  | fin q =>
      simp only [jgtC, decide_eq_true_eq] at h ⊢
      linarith

lemma inScale19_intClamp (j : ℤ) :
    inScale19 (JSNum.fin (max 1 (min 9 (j : ℚ)))) = true := by
  have hcast : max 1 (min 9 (j : ℚ)) = ((max 1 (min 9 j) : ℤ) : ℚ) := by
    push_cast
    rfl
  have h1 : (1 : ℤ) ≤ max 1 (min 9 j) := le_max_left _ _
  have h9 : max 1 (min 9 j) ≤ (9 : ℤ) := max_le (by norm_num) (min_le_left _ _)
  simp only [inScale19, hcast, Bool.and_eq_true, decide_eq_true_eq]
  refine ⟨⟨Rat.den_intCast _, ?_⟩, ?_⟩
  · exact_mod_cast h1
  · exact_mod_cast h9

lemma scale_clamp_fin (a : ℚ) :
    inScale19 (jmax (JSNum.fin 1) (jmin (JSNum.fin 9)
      (jadd (jround (JSNum.fin a)) (JSNum.fin 1)))) = true := by
  show inScale19 (JSNum.fin (max 1 (min 9 (((qfloor (a + 1 / 2) : ℤ) : ℚ) + 1)))) = true
  rw [show ((qfloor (a + 1 / 2) : ℤ) : ℚ) + 1 = ((qfloor (a + 1 / 2) + 1 : ℤ) : ℚ) by
    push_cast
    ring]
  exact inScale19_intClamp _

lemma scaleV2_clamp_fin (a : ℚ) :
    inScale19 (jmax (JSNum.fin 1) (jmin (JSNum.fin 9)
      (jaddC (jround (JSNum.fin a)) 5))) = true := by
  show inScale19 (JSNum.fin (max 1 (min 9 (((qfloor (a + 1 / 2) : ℤ) : ℚ) + 5)))) = true
  rw [show ((qfloor (a + 1 / 2) : ℤ) : ℚ) + 5 = ((qfloor (a + 1 / 2) + 5 : ℤ) : ℚ) by
    push_cast
    ring]
  exact inScale19_intClamp _

lemma mapToScale_v1_inScale (s : ℚ → ℚ) (v : JSNum) (hv : v ≠ JSNum.nan) :
    inScale19 (mapToScale_v1 s v) = true := by
  cases v with
  | nan => exact absurd rfl hv
  | inf => exact scale_clamp_fin _
  | ninf => exact scale_clamp_fin _
  | fin q => exact scale_clamp_fin _

lemma mapToScale_p1b_inScale (s : ℚ → ℚ) (v : JSNum) (hv : v ≠ JSNum.nan) :
    inScale19 (mapToScale_p1b s v) = true := by
  cases v with
  | nan => exact absurd rfl hv
  | inf => exact scale_clamp_fin _
  | ninf => exact scale_clamp_fin _
  | fin q => exact scale_clamp_fin _

lemma mapToScale_p3_inScale (v : JSNum) (hv : v ≠ JSNum.nan) :
    inScale19 (mapToScale_p3 v) = true := by
  cases v with
  | nan => exact absurd rfl hv
  | inf => exact scale_clamp_fin _
  | ninf => exact scale_clamp_fin _
  | fin q => exact scale_clamp_fin _

lemma mapToScale_p4_inScale (v : JSNum) (hv : v ≠ JSNum.nan) :
    inScale19 (mapToScale_p4 v) = true := by
  cases v with
  | nan => exact absurd rfl hv
  | inf => exact scale_clamp_fin _
  | ninf => exact scale_clamp_fin _
  | fin q => exact scale_clamp_fin _

lemma mapToScale_p0_inScale (v : JSNum) (hv : v ≠ JSNum.nan) :
    inScale19 (mapToScale_p0 v) = true := by
  cases v with
  | nan => exact absurd rfl hv
  | inf => exact scale_clamp_fin _
  | ninf => exact scale_clamp_fin _
  | fin q => exact scale_clamp_fin _

lemma scaleV2_inScale (v : JSNum) (hv : v ≠ JSNum.nan) :
    inScale19 (scaleV2 v) = true := by
  cases v with
  | nan => exact absurd rfl hv
  | inf => decide
  | ninf => decide
  | fin q => exact scaleV2_clamp_fin _

lemma mapToScale_v1_zero (s : ℚ → ℚ) : mapToScale_v1 s (JSNum.fin 0) = JSNum.fin 5 := by
  show JSNum.fin (max 1 (min 9
      (((qfloor ((0 * s |(0 : ℚ)| + 1) / 2 * 8 + 1 / 2) : ℤ) : ℚ) + 1))) = JSNum.fin 5
  rw [zero_mul]
  decide

lemma inScale19_cases (w : JSNum) (h : inScale19 w = true) :
    ∃ n : ℤ, 1 ≤ n ∧ n ≤ 9 ∧ w = JSNum.fin (n : ℚ) := by
  cases w with
  | nan => simp [inScale19] at h
  | inf => simp [inScale19] at h
  | ninf => simp [inScale19] at h
  | fin q =>
      simp only [inScale19, Bool.and_eq_true, decide_eq_true_eq] at h
      obtain ⟨⟨hden, h1⟩, h9⟩ := h
      have hq : (q.num : ℚ) = q := Rat.coe_int_num_of_den_eq_one hden
      refine ⟨q.num, ?_, ?_, by rw [hq]⟩
      · exact_mod_cast hq ▸ h1
      · exact_mod_cast hq ▸ h9

lemma padTwo_digits (w : JSNum) (h : inScale19 w = true) :
    isTwoDigits (padStart2 (jsStr w)) = true := by
  obtain ⟨n, h1, h9, rfl⟩ := inScale19_cases w h
  interval_cases n <;> decide

lemma digit_string (w : JSNum) (h : inScale19 w = true) :
    ∃ c : Char, c.isDigit = true ∧ jsStr w = String.mk [c] := by
  obtain ⟨n, h1, h9, rfl⟩ := inScale19_cases w h
  interval_cases n
  · exact ⟨'1', by decide, by decide⟩
  · exact ⟨'2', by decide, by decide⟩
  · exact ⟨'3', by decide, by decide⟩
  · exact ⟨'4', by decide, by decide⟩
  · exact ⟨'5', by decide, by decide⟩
  · exact ⟨'6', by decide, by decide⟩
  · exact ⟨'7', by decide, by decide⟩
  · exact ⟨'8', by decide, by decide⟩
  · exact ⟨'9', by decide, by decide⟩

lemma isTwoDigits_cases (p : String) (h : isTwoDigits p = true) :
    ∃ a b : Char, p.data = [a, b] ∧ a.isDigit = true ∧ b.isDigit = true := by
  rcases hp : p.data with _ | ⟨a, _ | ⟨b, _ | ⟨c, t⟩⟩⟩
  · simp [isTwoDigits, hp] at h
  · simp [isTwoDigits, hp] at h
  · simp only [isTwoDigits, hp, Bool.and_eq_true] at h
    exact ⟨a, b, rfl, h.1, h.2⟩
  · simp [isTwoDigits, hp] at h

lemma xyBody_format (p1 p2 : String) (h1 : isTwoDigits p1 = true)
    (h2 : isTwoDigits p2 = true) :
    isXYFormat ("X" ++ p1 ++ "Y" ++ p2) = true ∧
    ("X" ++ p1 ++ "Y" ++ p2).length = 6 := by
  obtain ⟨a, b, hp1, ha, hb⟩ := isTwoDigits_cases p1 h1
  obtain ⟨c, d, hp2, hc, hd⟩ := isTwoDigits_cases p2 h2
  have hdata : ("X" ++ p1 ++ "Y" ++ p2).data = ['X', a, b, 'Y', c, d] := by
    simp [String.data_append, hp1, hp2]
  constructor
  · simp [isXYFormat, hdata, ha, hb, hc, hd]
  · show ("X" ++ p1 ++ "Y" ++ p2).data.length = 6
    rw [hdata]
    rfl

lemma foldl_min_le_init (t : List ℚ) (init : ℚ) : t.foldl min init ≤ init := by
  induction t generalizing init with
  | nil => exact le_refl _
  | cons a t ih => exact le_trans (ih (min init a)) (min_le_left _ _)

lemma foldl_min_le_mem (t : List ℚ) (init x : ℚ) (hx : x ∈ t) :
    t.foldl min init ≤ x := by
  induction t generalizing init with
  | nil => cases hx
  | cons a t ih =>
      rcases List.mem_cons.mp hx with rfl | hx
      · exact le_trans (foldl_min_le_init t (min init x)) (min_le_right _ _)
      · exact ih (min init a) hx

lemma listMinQ_le (l : List ℚ) (x : ℚ) (hx : x ∈ l) : listMinQ l ≤ x := by
  cases l with
  | nil => cases hx
  | cons a t =>
      rcases List.mem_cons.mp hx with rfl | hx
      · exact foldl_min_le_init t x
      · exact foldl_min_le_mem t a x hx

lemma init_le_foldl_max (t : List ℚ) (init : ℚ) : init ≤ t.foldl max init := by
  induction t generalizing init with
  | nil => exact le_refl _
  | cons a t ih => exact le_trans (le_max_left _ _) (ih (max init a))

lemma mem_le_foldl_max (t : List ℚ) (init x : ℚ) (hx : x ∈ t) :
    x ≤ t.foldl max init := by
  induction t generalizing init with
  | nil => cases hx
  | cons a t ih =>
      rcases List.mem_cons.mp hx with rfl | hx
      · exact le_trans (le_max_right _ _) (init_le_foldl_max t (max init x))
      · exact ih (max init a) hx

lemma le_listMaxQ (l : List ℚ) (x : ℚ) (hx : x ∈ l) : x ≤ listMaxQ l := by
  cases l with
  | nil => cases hx
  | cons a t =>
      rcases List.mem_cons.mp hx with rfl | hx
      · exact init_le_foldl_max t x
      · exact mem_le_foldl_max t a x hx

lemma foldl_add_eq (l : List ℚ) (acc : ℚ) : l.foldl (· + ·) acc = acc + l.sum := by
  induction l generalizing acc with
  | nil => simp
  | cons a t ih => simp [ih, List.sum_cons]; ring

lemma sum_lb (l : List ℚ) (b : ℚ) (h : ∀ x ∈ l, b ≤ x) :
    b * l.length ≤ l.sum := by
  induction l with
  | nil => simp
  | cons a t ih =>
      have ha := h a (List.mem_cons_self _ _)
      have ht := ih (fun x hx => h x (List.mem_cons_of_mem _ hx))
      simp only [List.sum_cons, List.length_cons]
      push_cast
      nlinarith

lemma sum_ub (l : List ℚ) (B : ℚ) (h : ∀ x ∈ l, x ≤ B) :
    l.sum ≤ B * l.length := by
  induction l with
  | nil => simp
  | cons a t ih =>
      have ha := h a (List.mem_cons_self _ _)
      have ht := ih (fun x hx => h x (List.mem_cons_of_mem _ hx))
      simp only [List.sum_cons, List.length_cons]
      push_cast
      nlinarith

lemma sma_avg_bounds (l : List ℚ) (hl : l ≠ []) :
    listMinQ l ≤ (l.foldl (· + ·) 0) / (l.length : ℚ) ∧
    (l.foldl (· + ·) 0) / (l.length : ℚ) ≤ listMaxQ l := by
  have hlen : 0 < (l.length : ℚ) := by
    have := List.length_pos.mpr hl
    exact_mod_cast this
  rw [foldl_add_eq, zero_add]
  constructor
  · rw [le_div_iff₀ hlen]
    exact sum_lb l _ (fun x hx => listMinQ_le l x hx)
  · rw [div_le_iff₀ hlen]
    exact sum_ub l _ (fun x hx => le_listMaxQ l x hx)

lemma wTotalAux_nonneg (l : List ℚ) (i : ℕ) : 0 ≤ wTotalAux i l := by
  induction l generalizing i with
  | nil => exact le_refl _
  | cons a t ih =>
      simp only [wTotalAux]
      have hw : (0 : ℚ) ≤ ((i : ℚ) + 1) * ((i : ℚ) + 1) := mul_self_nonneg _
      linarith [ih (i + 1)]

lemma wTotalAux_pos (l : List ℚ) (i : ℕ) (hl : l ≠ []) : 0 < wTotalAux i l := by
  cases l with
  | nil => exact absurd rfl hl
  | cons a t =>
      simp only [wTotalAux]
      have hw : (0 : ℚ) < ((i : ℚ) + 1) * ((i : ℚ) + 1) := by positivity
      linarith [wTotalAux_nonneg t (i + 1)]

lemma wSumAux_lb (l : List ℚ) (b : ℚ) (i : ℕ) (h : ∀ x ∈ l, b ≤ x) :
    b * wTotalAux i l ≤ wSumAux i l := by
  induction l generalizing i with
  | nil => simp [wSumAux, wTotalAux]
  | cons a t ih =>
      have ha := h a (List.mem_cons_self _ _)
      have ht := ih (i + 1) (fun x hx => h x (List.mem_cons_of_mem _ hx))
      simp only [wSumAux, wTotalAux]
      have hw : (0 : ℚ) ≤ ((i : ℚ) + 1) * ((i : ℚ) + 1) := mul_self_nonneg _
      nlinarith

lemma wSumAux_ub (l : List ℚ) (B : ℚ) (i : ℕ) (h : ∀ x ∈ l, x ≤ B) :
    wSumAux i l ≤ B * wTotalAux i l := by
  induction l generalizing i with
  | nil => simp [wSumAux, wTotalAux]
  | cons a t ih =>
      have ha := h a (List.mem_cons_self _ _)
      have ht := ih (i + 1) (fun x hx => h x (List.mem_cons_of_mem _ hx))
      simp only [wSumAux, wTotalAux]
      have hw : (0 : ℚ) ≤ ((i : ℚ) + 1) * ((i : ℚ) + 1) := mul_self_nonneg _
      nlinarith

lemma wma_avg_bounds (l : List ℚ) (hl : l ≠ []) :
    listMinQ l ≤ wSumAux 0 l / wTotalAux 0 l ∧
    wSumAux 0 l / wTotalAux 0 l ≤ listMaxQ l := by
  have hpos := wTotalAux_pos l 0 hl
  constructor
  · rw [le_div_iff₀ hpos]
    exact wSumAux_lb l _ 0 (fun x hx => listMinQ_le l x hx)
  · rw [div_le_iff₀ hpos]
    exact wSumAux_ub l _ 0 (fun x hx => le_listMaxQ l x hx)

lemma trim_ne_nil (l : List (ℚ × ℚ)) (p : ℚ × ℚ) (n : ℕ) (hn : 1 ≤ n) :
    (if (l ++ [p]).length > n then (l ++ [p]).tail else l ++ [p]) ≠ [] := by
  split
  · next hlen =>
      have : 0 < (l ++ [p]).tail.length := by
        rw [List.length_tail]
        omega
      exact List.ne_nil_of_length_pos this
  · simp

lemma sma_axis_bounds (L : List (ℚ × ℚ)) (hL : L ≠ []) (f : ℚ × ℚ → ℚ) :
    listMinQ (L.map f) ≤ ((L.map f).foldl (· + ·) 0) / (L.length : ℚ) ∧
    ((L.map f).foldl (· + ·) 0) / (L.length : ℚ) ≤ listMaxQ (L.map f) := by
  have hmap : L.map f ≠ [] := by
    simp [List.map_eq_nil_iff, hL]
  have h := sma_avg_bounds (L.map f) hmap
  rwa [List.length_map] at h

lemma wma_axis_bounds (L : List (ℚ × ℚ)) (hL : L ≠ []) (f : ℚ × ℚ → ℚ) :
    listMinQ (L.map f) ≤ wSumAux 0 (L.map f) / wTotalAux 0 (L.map f) ∧
    wSumAux 0 (L.map f) / wTotalAux 0 (L.map f) ≤ listMaxQ (L.map f) := by
  have hmap : L.map f ≠ [] := by
    simp [List.map_eq_nil_iff, hL]
  exact wma_avg_bounds (L.map f) hmap

lemma getLast?_trim (l : List (JSNum × JSNum)) (p : JSNum × JSNum) (n : ℕ)
    (hn : 1 ≤ n) :
    ((if (l ++ [p]).length > n then (l ++ [p]).tail else l ++ [p]) :
      List (JSNum × JSNum)).getLast? = some p := by
  split
  · next hlen =>
      cases l with
      | nil => simp at hlen; omega
      | cons a t =>
          show (t ++ [p]).getLast? = some p
          exact List.getLast?_concat _
  · exact List.getLast?_concat _

/-! ## Claim theorems -/

/-- C2 (corrected): for every non-NaN value v — every rational, however
extreme or negative, and both infinities — each cited scale mapper
(index.js curved, part_004 linear ±8, part_003 linear ±10, part_000
linear ±20) yields an integer in {1,...,9}: never 0, never 10.  The
claim's inclusion of all non-finite values fails at NaN (see the
counterexample): the mapper maps NaN to NaN. -/
theorem claim_C2_scale_always_1_to_9 (s : ℚ → ℚ) (v : JSNum) (hv : v ≠ JSNum.nan) :
    inScale19 (mapToScale_v1 s v) = true ∧
    inScale19 (mapToScale_p4 v) = true ∧
    inScale19 (mapToScale_p3 v) = true ∧
    inScale19 (mapToScale_p0 v) = true :=
  ⟨mapToScale_v1_inScale s v hv, mapToScale_p4_inScale v hv,
   mapToScale_p3_inScale v hv, mapToScale_p0_inScale v hv⟩

/-- Witness for C2 at the concrete input 3 (and `s` the identity). -/
theorem claim_C2_scale_always_1_to_9_witness :
    inScale19 (mapToScale_v1 (fun q => q) (JSNum.fin 3)) = true ∧
    inScale19 (mapToScale_p4 (JSNum.fin 3)) = true ∧
    inScale19 (mapToScale_p3 (JSNum.fin 3)) = true ∧
    inScale19 (mapToScale_p0 (JSNum.fin 3)) = true :=
  claim_C2_scale_always_1_to_9 (fun q => q) (JSNum.fin 3) (by decide)

/-- Counterexample for C2 as stated: NaN is a non-finite value that a
session can store (see `nanDemoStore2`: two accepted updates carrying
Infinity and -Infinity leave x = NaN), and the mapper computes NaN on it
— not an integer in {1,...,9}. -/
theorem claim_C2_counterexample :
    (nanDemoStore2 "AAAA2222").map Session.x = some JSNum.nan ∧
    mapToScale_v1 (fun q => q) JSNum.nan = JSNum.nan ∧
    inScale19 (mapToScale_v1 (fun q => q) JSNum.nan) = false := by
  refine ⟨by decide, by decide, by decide⟩

/-- C4 (confirmed): after an update from any prior history, the filtered
value of each axis lies within [min, max] of the samples then held in
the bounded window — for the simple moving average of index.js's first
server and for the weighted moving average (with outlier blending) of
its second server. -/
theorem claim_C4_filtered_within_hull (hist : List (ℚ × ℚ)) (x y : ℚ) :
    (listMinQ (((smaStepV1 hist x y).1).map Prod.fst) ≤ (smaStepV1 hist x y).2.1 ∧
      (smaStepV1 hist x y).2.1 ≤ listMaxQ (((smaStepV1 hist x y).1).map Prod.fst)) ∧
    (listMinQ (((smaStepV1 hist x y).1).map Prod.snd) ≤ (smaStepV1 hist x y).2.2 ∧
      (smaStepV1 hist x y).2.2 ≤ listMaxQ (((smaStepV1 hist x y).1).map Prod.snd)) ∧
    (listMinQ (((wmaStepV2 hist x y).1).map Prod.fst) ≤ (wmaStepV2 hist x y).2.1 ∧
      (wmaStepV2 hist x y).2.1 ≤ listMaxQ (((wmaStepV2 hist x y).1).map Prod.fst)) ∧
    (listMinQ (((wmaStepV2 hist x y).1).map Prod.snd) ≤ (wmaStepV2 hist x y).2.2 ∧
      (wmaStepV2 hist x y).2.2 ≤ listMaxQ (((wmaStepV2 hist x y).1).map Prod.snd)) := by
  have hsma : ((if (hist ++ [(x, y)]).length > 3
      then (hist ++ [(x, y)]).tail else hist ++ [(x, y)]) : List (ℚ × ℚ)) ≠ [] :=
    trim_ne_nil hist (x, y) 3 (by norm_num)
  refine ⟨?_, ?_, ?_, ?_⟩
  · exact sma_axis_bounds _ hsma Prod.fst
  · exact sma_axis_bounds _ hsma Prod.snd
  · rcases hgl : hist.getLast? with _ | last
    · show listMinQ _ ≤ _ ∧ _
      simp only [wmaStepV2, hgl]
      exact wma_axis_bounds _ (trim_ne_nil hist (x, y) 8 (by norm_num)) Prod.fst
    · show listMinQ _ ≤ _ ∧ _
      simp only [wmaStepV2, hgl]
      exact wma_axis_bounds _ (trim_ne_nil hist _ 8 (by norm_num)) Prod.fst
  · rcases hgl : hist.getLast? with _ | last
    · show listMinQ _ ≤ _ ∧ _
      simp only [wmaStepV2, hgl]
      exact wma_axis_bounds _ (trim_ne_nil hist (x, y) 8 (by norm_num)) Prod.snd
    · show listMinQ _ ≤ _ ∧ _
      simp only [wmaStepV2, hgl]
      exact wma_axis_bounds _ (trim_ne_nil hist _ 8 (by norm_num)) Prod.snd

/-- C5 (corrected, amended part): in the index.js first server, the /x,
/y and /simple read paths compare `age > 60000`, so a session whose age
is exactly the TTL is still live there; the fourth server's /latest
compares `age < 30000`, so a session whose age is exactly its TTL is
expired there.  The boundary is therefore not treated consistently
across the read paths. -/
theorem claim_C5_ttl_boundary_split (ts : ℤ) :
    xTtlExpiredV1 (ts + 60000) ts = false ∧
    yTtlExpiredV1 (ts + 60000) ts = false ∧
    simpleTtlExpiredV1 (ts + 60000) ts = false ∧
    latestTtlLiveV4 (ts + 30000) ts = false := by
  refine ⟨?_, ?_, ?_, ?_⟩ <;>
    simp [xTtlExpiredV1, yTtlExpiredV1, simpleTtlExpiredV1, latestTtlLiveV4]

/-- Counterexample for C5 as stated: at age exactly equal to the TTL, it
is neither the case that every read path treats the session as expired,
nor that every read path treats it as live — /x, /y, /simple (strict >)
keep it live while /latest (strict <) treats it as expired. -/
theorem claim_C5_counterexample :
    ¬ ((xTtlExpiredV1 60000 0 = true ∧ yTtlExpiredV1 60000 0 = true ∧
        simpleTtlExpiredV1 60000 0 = true ∧ latestTtlLiveV4 30000 0 = false) ∨
       (xTtlExpiredV1 60000 0 = false ∧ yTtlExpiredV1 60000 0 = false ∧
        simpleTtlExpiredV1 60000 0 = false ∧ latestTtlLiveV4 30000 0 = true)) := by
  decide

/-- C8 (confirmed): every token the in-repository generators return is
exactly 8 characters; the clearChars generator draws each character from
an alphanumeric alphabet excluding 0, 1, O, I and l, and the documented
digits-only variant draws each character from the digits 2-9 (so the
same exclusions hold). -/
theorem claim_C8_token_format (pick1 : Fin 8 → Fin clearCharsFull.length)
    (pick2 : Fin 8 → Fin clearCharsDigits.length) :
    (genToken clearCharsFull pick1).length = 8 ∧
    ((genToken clearCharsFull pick1).data.all tokenCharOk) = true ∧
    (genToken clearCharsDigits pick2).length = 8 ∧
    ((genToken clearCharsDigits pick2).data.all Char.isDigit) = true ∧
    ((genToken clearCharsDigits pick2).data.all tokenCharOk) = true := by
  have hlen1 : (genToken clearCharsFull pick1).length = 8 := by
    show ((List.finRange 8).map _).length = 8
    simp
  have hlen2 : (genToken clearCharsDigits pick2).length = 8 := by
    show ((List.finRange 8).map _).length = 8
    simp
  have hmem1 : ∀ c ∈ (genToken clearCharsFull pick1).data, c ∈ clearCharsFull := by
    intro c hc
    simp only [genToken] at hc
    obtain ⟨i, _, rfl⟩ := List.mem_map.mp hc
    exact List.get_mem _ _ _
  have hmem2 : ∀ c ∈ (genToken clearCharsDigits pick2).data, c ∈ clearCharsDigits := by
    intro c hc
    simp only [genToken] at hc
    obtain ⟨i, _, rfl⟩ := List.mem_map.mp hc
    exact List.get_mem _ _ _
  have halpha : ∀ c ∈ clearCharsFull, tokenCharOk c = true := by decide
  have hdig : ∀ c ∈ clearCharsDigits, Char.isDigit c = true := by decide
  have hdig2 : ∀ c ∈ clearCharsDigits, tokenCharOk c = true := by decide
  refine ⟨hlen1, ?_, hlen2, ?_, ?_⟩
  · exact List.all_eq_true.mpr (fun c hc => halpha c (hmem1 c hc))
  · exact List.all_eq_true.mpr (fun c hc => hdig c (hmem2 c hc))
  · exact List.all_eq_true.mpr (fun c hc => hdig2 c (hmem2 c hc))

/-- C9 (confirmed): on part_003, a freshly created session updated with
(10, -10) and immediately read through /simple (linear mapping with
input range 10) answers exactly `X09Y01`. -/
theorem claim_C9_concrete_scenario :
    simpleP3 scenarioP3Store1 "BBBB2222" 0 = ("X09Y01", 200) := by
  decide
lemma simpleV1_absent (s : ℚ → ℚ) (store : Store) (token : String) (now : ℤ)
    (h : store token = none) : simpleV1 s store token now = ("X05Y05", 200) := by
  simp [simpleV1, h]

lemma simpleV1_expired (s : ℚ → ℚ) (store : Store) (token : String) (now : ℤ)
    (sess : Session) (h : store token = some sess) (he : now - sess.ts > 60000) :
    simpleV1 s store token now = ("X05Y05", 200) := by
  simp [simpleV1, h, simpleTtlExpiredV1, he]

lemma simpleP1b_absent (s : ℚ → ℚ) (store : Store) (token : String) (now : ℤ)
    (h : store token = none) : simpleP1b s store token now = ("X05Y05", 200) := by
  simp [simpleP1b, h]

lemma simpleP1b_expired (s : ℚ → ℚ) (store : Store) (token : String) (now : ℤ)
    (sess : Session) (h : store token = some sess) (he : now - sess.ts > 60000) :
    simpleP1b s store token now = ("X05Y05", 200) := by
  simp [simpleP1b, h, simpleTtlExpiredV1, he]

lemma simpleV1_status (s : ℚ → ℚ) (store : Store) (token : String) (now : ℤ) :
    (simpleV1 s store token now).2 = 200 := by
  rcases hst : store token with _ | sess
  · simp [simpleV1, hst]
  · simp only [simpleV1, hst]
    split
    · rfl
    · rfl

lemma simpleP1b_status (s : ℚ → ℚ) (store : Store) (token : String) (now : ℤ) :
    (simpleP1b s store token now).2 = 200 := by
  rcases hst : store token with _ | sess
  · simp [simpleP1b, hst]
  · simp only [simpleP1b, hst]
    split
    · rfl
    · rfl

lemma simpleV1_body_format (s : ℚ → ℚ) (store : Store) (token : String) (now : ℤ)
    (hok : sessionNumsOk (store token) = true) :
    isXYFormat (simpleV1 s store token now).1 = true ∧
    (simpleV1 s store token now).1.length = 6 := by
  rcases hst : store token with _ | sess
  · rw [simpleV1_absent s store token now hst]
    exact ⟨by decide, by decide⟩
  · rw [hst] at hok
    simp only [sessionNumsOk, Bool.and_eq_true, Bool.not_eq_true'] at hok
    obtain ⟨hx, hy⟩ := hok
    have hx' : sess.x ≠ JSNum.nan := (jIsNaN_false_iff _).mp hx
    have hy' : sess.y ≠ JSNum.nan := (jIsNaN_false_iff _).mp hy
    simp only [simpleV1, hst]
    split
    · exact ⟨by decide, by decide⟩
    · by_cases hext : (jgtC (jabs sess.x) 12 || jgtC (jabs sess.y) 12) = true
      · simp only [hext, if_true]
        exact xyBody_format _ _
          (padTwo_digits _ (mapToScale_v1_inScale s _ (by decide)))
          (padTwo_digits _ (mapToScale_v1_inScale s _ (by decide)))
      · simp only [hext, if_false, Bool.false_eq_true]
        exact xyBody_format _ _
          (padTwo_digits _ (mapToScale_v1_inScale s _ hx'))
          (padTwo_digits _ (mapToScale_v1_inScale s _ hy'))
lemma xyBody0_format (c d : Char) (hc : c.isDigit = true) (hd : d.isDigit = true) :
    isXYFormat ("X0" ++ String.mk [c] ++ "Y0" ++ String.mk [d]) = true ∧
    ("X0" ++ String.mk [c] ++ "Y0" ++ String.mk [d]).length = 6 := by
  have hdata : ("X0" ++ String.mk [c] ++ "Y0" ++ String.mk [d]).data
      = ['X', '0', c, 'Y', '0', d] := by
    simp [String.data_append]
  constructor
  · simp [isXYFormat, hdata, hc, hd]
  · show ("X0" ++ String.mk [c] ++ "Y0" ++ String.mk [d]).data.length = 6
    rw [hdata]
    rfl

lemma simpleV2_body_format (store : Store) (token : String) (now : ℤ)
    (hok : sessionNumsOk (store token) = true) :
    isXYFormat (simpleV2 store token now).1 = true ∧
    (simpleV2 store token now).1.length = 6 := by
  rcases hst : store token with _ | sess
  · simp only [simpleV2, hst]
    exact ⟨by decide, by decide⟩
  · rw [hst] at hok
    simp only [sessionNumsOk, Bool.and_eq_true, Bool.not_eq_true'] at hok
    obtain ⟨hx, hy⟩ := hok
    have hx' : sess.x ≠ JSNum.nan := (jIsNaN_false_iff _).mp hx
    have hy' : sess.y ≠ JSNum.nan := (jIsNaN_false_iff _).mp hy
    simp only [simpleV2, hst]
    split
    · exact ⟨by decide, by decide⟩
    · obtain ⟨c, hc, hcs⟩ := digit_string _ (scaleV2_inScale sess.x hx')
      obtain ⟨d, hd, hds⟩ := digit_string _ (scaleV2_inScale sess.y hy')
      rw [hcs, hds]
      exact xyBody0_format c d hc hd
lemma simpleV1_extreme (s : ℚ → ℚ) (store : Store) (token : String) (now : ℤ)
    (sess : Session) (hst : store token = some sess)
    (hfresh : now - sess.ts ≤ 60000)
    (hext : (jgtC (jabs sess.x) 12 || jgtC (jabs sess.y) 12) = true) :
    simpleV1 s store token now = ("X05Y05", 200) := by
  have hnotexp : simpleTtlExpiredV1 now sess.ts = false := by
    simp [simpleTtlExpiredV1]
    omega
  simp only [simpleV1, hst, hnotexp, Bool.false_eq_true, if_false, hext, if_true,
    mapToScale_v1_zero]
  decide

lemma simpleP3_extreme (store : Store) (token : String) (now : ℤ)
    (sess : Session) (hst : store token = some sess)
    (hfresh : now - sess.ts ≤ 180000)
    (hext : (jgtC (jabs sess.x) 15 || jgtC (jabs sess.y) 15) = true) :
    simpleP3 store token now = ("X05Y05", 200) := by
  have hnotexp : decide (now - sess.ts > 180000) = false := by
    simp
    omega
  simp only [simpleP3, hst, hnotexp, Bool.false_eq_true, if_false, hext, if_true]
  decide

/-- C1 (corrected): the read-mapped-scale operation never surfaces an
error — every path of the index.js handler and of the part_001 second
handler answers HTTP 200, and the unknown-token and expired-session
paths answer the center sentinel `X05Y05` — but the internal-fault
(catch) path answers `X05Y05` only in the index.js variant; the part_001
second variant's catch answers `X07Y07`. -/
theorem claim_C1_simple_never_errors (s : ℚ → ℚ) (store : Store) (token : String)
    (now : ℤ) :
    (simpleV1 s store token now).2 = 200 ∧
    (simpleP1b s store token now).2 = 200 ∧
    (store token = none →
      simpleV1 s store token now = ("X05Y05", 200) ∧
      simpleP1b s store token now = ("X05Y05", 200)) ∧
    (∀ sess, store token = some sess → now - sess.ts > 60000 →
      simpleV1 s store token now = ("X05Y05", 200) ∧
      simpleP1b s store token now = ("X05Y05", 200)) ∧
    simpleV1_onFault = ("X05Y05", 200) ∧
    simpleP1b_onFault = ("X07Y07", 200) := by
  refine ⟨simpleV1_status s store token now, simpleP1b_status s store token now,
    fun h => ⟨simpleV1_absent s store token now h, simpleP1b_absent s store token now h⟩,
    fun sess h he => ⟨simpleV1_expired s store token now sess h he,
      simpleP1b_expired s store token now sess h he⟩, rfl, rfl⟩

/-- Witness for C1's conditional parts at a concrete store: an unknown
token answers the center sentinel with status 200 on both variants. -/
theorem claim_C1_simple_never_errors_witness :
    simpleV1 (fun q => q) (fun _ => none) "AAAA2222" 0 = ("X05Y05", 200) ∧
    simpleP1b (fun q => q) (fun _ => none) "AAAA2222" 0 = ("X05Y05", 200) :=
  (claim_C1_simple_never_errors (fun q => q) (fun _ => none) "AAAA2222" 0).2.2.1 rfl

/-- Counterexample for C1 as stated: the part_001 second variant's catch
handler answers `X07Y07`, not the center sentinel `X05Y05`, on the
internal-fault path. -/
theorem claim_C1_counterexample :
    simpleP1b_onFault = ("X07Y07", 200) ∧ simpleP1b_onFault.1 ≠ "X05Y05" := by
  refine ⟨rfl, by decide⟩

/-- C3 (corrected): whenever the stored session values are not NaN (in
particular on every store state reachable without non-finite inputs),
the body of the read-mapped-scale operation is exactly 6 characters
matching `X\d\dY\d\d`, on the computed path of both cited variants, on
the degraded paths, and on the fault paths.  The claim's quantification
over every store state fails on sessions holding NaN (see the
counterexample). -/
theorem claim_C3_simple_body_format (s : ℚ → ℚ) (store : Store) (token : String)
    (now : ℤ) (hok : sessionNumsOk (store token) = true) :
    isXYFormat (simpleV1 s store token now).1 = true ∧
    (simpleV1 s store token now).1.length = 6 ∧
    isXYFormat (simpleV2 store token now).1 = true ∧
    (simpleV2 store token now).1.length = 6 ∧
    isXYFormat simpleV1_onFault.1 = true ∧
    isXYFormat simpleV2_onFault.1 = true := by
  obtain ⟨h1, h2⟩ := simpleV1_body_format s store token now hok
  obtain ⟨h3, h4⟩ := simpleV2_body_format store token now hok
  exact ⟨h1, h2, h3, h4, by decide, by decide⟩

/-- Witness for C3 at a concrete live store with finite values. -/
theorem claim_C3_simple_body_format_witness :
    isXYFormat (simpleV1 (fun q => q) witnessStoreA "EEEE2222" 0).1 = true ∧
    (simpleV1 (fun q => q) witnessStoreA "EEEE2222" 0).1.length = 6 ∧
    isXYFormat (simpleV2 witnessStoreA "EEEE2222" 0).1 = true ∧
    (simpleV2 witnessStoreA "EEEE2222" 0).1.length = 6 ∧
    isXYFormat simpleV1_onFault.1 = true ∧
    isXYFormat simpleV2_onFault.1 = true :=
  claim_C3_simple_body_format (fun q => q) witnessStoreA "EEEE2222" 0 (by decide)

/-- Counterexample for C3 as stated: from a fresh session, two accepted
updates carrying Infinity and then -Infinity leave x = NaN, and the
immediately following read answers the 7-character body `XNaNY05`, which
does not match `X\d\dY\d\d`. -/
theorem claim_C3_counterexample :
    simpleV1 (fun q => q) nanDemoStore2 "AAAA2222" 0 = ("XNaNY05", 200) ∧
    isXYFormat "XNaNY05" = false ∧ ("XNaNY05" : String).length ≠ 6 := by
  refine ⟨by decide, by decide, by decide⟩

/-- C7 (corrected): each centering variant is proven at its own sanity
bound and its own read TTL — in the index.js first variant, any live
reading (age within the 60-second TTL) beyond ±12 on either axis makes
the handler substitute the center value 0 for both mapper inputs, and
in part_003 any live reading (age within its 180-second TTL) beyond ±15
does the same — so the response is exactly the center body `X05Y05`.
The part_000 variant does NOT substitute the center: its guard clamps
the values to ±25 and propagates them (see the counterexample). -/
theorem claim_C7_extreme_value_guard (s : ℚ → ℚ) (store : Store) (token : String)
    (now : ℤ) (sess : Session) (hst : store token = some sess) :
    (now - sess.ts ≤ 60000 →
      (jgtC (jabs sess.x) 12 || jgtC (jabs sess.y) 12) = true →
      simpleV1 s store token now = ("X05Y05", 200)) ∧
    (now - sess.ts ≤ 180000 →
      (jgtC (jabs sess.x) 15 || jgtC (jabs sess.y) 15) = true →
      simpleP3 store token now = ("X05Y05", 200)) :=
  ⟨fun hfresh hext => simpleV1_extreme s store token now sess hst hfresh hext,
   fun hfresh hext => simpleP3_extreme store token now sess hst hfresh hext⟩

/-- Witness for C7 in the regimes specific to each variant: index.js
centers a session with x = 13 (beyond its bound 12 though within 15),
and part_003 centers a session with x = 20 read at age 100000 ms
(beyond the 60-second TTL of index.js, within part_003's 180 seconds). -/
theorem claim_C7_extreme_value_guard_witness :
    simpleV1 (fun q => q) witnessStoreD "HHHH2222" 0 = ("X05Y05", 200) ∧
    simpleP3 witnessStoreB "FFFF2222" 100000 = ("X05Y05", 200) :=
  ⟨(claim_C7_extreme_value_guard (fun q => q) witnessStoreD "HHHH2222" 0
      (⟨JSNum.fin 13, JSNum.fin 0, 0, [], 0⟩ : Session) rfl).1 (by decide) (by decide),
   (claim_C7_extreme_value_guard (fun q => q) witnessStoreB "FFFF2222" 100000
      (⟨JSNum.fin 20, JSNum.fin 0, 0, [], 0⟩ : Session) rfl).2 (by decide) (by decide)⟩

/-- Counterexample for C7 as stated: on part_000, a session with x = 30
(beyond that variant's ±25 bound) is clamped to 25 and propagated — the
response is `X09Y05`, not the center scale 5. -/
theorem claim_C7_counterexample :
    simpleP0 extremeP0Store "CCCC2222" 0 = ("X09Y05", 200) ∧
    ("X09Y05" : String) ≠ "X05Y05" := by
  refine ⟨by decide, by decide⟩

/-- C6 (corrected): in the index.js first variant, an update whose x or y
parses as NaN fails with the structured invalid-motion-data error and
leaves the store untouched; but the check is `isNaN` only, so the
non-finite value Infinity is accepted, and the part_001 variant performs
no motion-data validation at all — `parseFloat(x) || 0` silently
substitutes the default 0 and the update succeeds. -/
theorem claim_C6_update_motion_validation (store : Store) (token : String)
    (sess : Session) (xp yp : JSNum) (now : ℤ)
    (htok : token ≠ "") (hs : store token = some sess) :
    ((jIsNaN xp || jIsNaN yp) = true →
      updateOpV1 store token xp yp now = (store, Except.error UpdErr.invalidMotionData)) ∧
    (∃ sess1, (updateOpV1 store token JSNum.inf (JSNum.fin 0) now).2 = Except.ok sess1) ∧
    ((updateOpP1 store token xp yp now).2
        = Except.ok (smoothedSession sess (parseOr0 xp) (parseOr0 yp) now) ∧
      (smoothedSession sess (parseOr0 xp) (parseOr0 yp) now).history.getLast?
        = some (parseOr0 xp, parseOr0 yp)) := by
  refine ⟨?_, ?_, ?_, ?_⟩
  · intro h
    simp [updateOpV1, htok, hs, h]
  · exact ⟨smoothedSession sess JSNum.inf (JSNum.fin 0) now,
      by simp [updateOpV1, htok, hs, jIsNaN]⟩
  · simp [updateOpP1, htok, hs]
  · exact getLast?_trim sess.history _ 3 (by norm_num)

/-- Witness for C6: a NaN x on a live session is rejected with the
invalid-motion-data error and the store is returned unchanged. -/
theorem claim_C6_update_motion_validation_witness :
    updateOpV1 witnessStoreA "EEEE2222" JSNum.nan (JSNum.fin 1) 5
      = (witnessStoreA, Except.error UpdErr.invalidMotionData) :=
  (claim_C6_update_motion_validation witnessStoreA "EEEE2222"
    (⟨JSNum.fin 2, JSNum.fin 3, 0, [], 0⟩ : Session) JSNum.nan (JSNum.fin 1) 5
    (by decide) rfl).1 (by decide)

/-- Counterexample for C6 as stated: on the part_001 variant, an update
whose x and y are non-numeric (parse as NaN) succeeds — it answers ok
and stores the silently substituted default 0 — instead of failing with
the invalid-motion-data error. -/
theorem claim_C6_counterexample :
    (updateOpP1 coerceP1Store "DDDD2222" JSNum.nan JSNum.nan 0).2 =
      Except.ok (⟨JSNum.fin 0, JSNum.fin 0, 0, [(JSNum.fin 0, JSNum.fin 0)], 1⟩ : Session) ∧
    (updateOpP1 coerceP1Store "DDDD2222" JSNum.nan JSNum.nan 0).2 ≠
      Except.error UpdErr.invalidMotionData := by
  refine ⟨rfl, fun h => ?_⟩
  exact nomatch h

/-- C10 (confirmed): for a request that carries a token, the update
fails with the invalid-token error exactly when the token is not a key
of the store; no age check runs on the write path, so a session stale
for every read (age beyond the 60-second read TTL) that the 120-second
sweep has not yet removed is still updated, and the accepted update
resets `ts` to the present so an immediate read is fresh again. -/
theorem claim_C10_update_ignores_ttl (store : Store) (token : String)
    (xp yp : JSNum) (now : ℤ) (htok : token ≠ "") :
    ((updateOpV1 store token xp yp now).2 = Except.error UpdErr.invalidToken ↔
      store token = none) ∧
    (∀ sess, store token = some sess → jIsNaN xp = false → jIsNaN yp = false →
      ∃ sess1, (updateOpV1 store token xp yp now).2 = Except.ok sess1 ∧
        (updateOpV1 store token xp yp now).1 token = some sess1 ∧
        sess1.ts = now ∧ simpleTtlExpiredV1 now sess1.ts = false) ∧
    (∀ (sess : Session) (s : ℚ → ℚ), store token = some sess → now - sess.ts > 60000 →
      simpleV1 s store token now = ("X05Y05", 200)) ∧
    (∀ sess, store token = some sess → ¬ now - sess.ts > 120000 →
      sweepV1 store now token = some sess) := by
  refine ⟨?_, ?_, ?_, ?_⟩
  · rcases hst : store token with _ | sess
    · simp [updateOpV1, htok, hst]
    · constructor
      · intro h
        exfalso
        by_cases hnn : (jIsNaN xp || jIsNaN yp) = true
        · simp [updateOpV1, htok, hst, hnn] at h
        · simp [updateOpV1, htok, hst, hnn] at h
      · intro h
        simp [hst] at h
  · intro sess hst hx hy
    simp only [updateOpV1, if_neg htok, hst, hx, hy, Bool.or_self, Bool.false_eq_true,
      if_false]
    refine ⟨_, rfl, ?_, rfl, ?_⟩
    · simp
    · show simpleTtlExpiredV1 now now = false
      simp [simpleTtlExpiredV1]
  · intro sess s hst hexp
    exact simpleV1_expired s store token now sess hst hexp
  · intro sess hst hno
    simp [sweepV1, hst, hno]

/-- Witness for C10 on a session of age 90000 ms: stale for reads, kept
by the sweep, still updatable, and fresh again after the update. -/
theorem claim_C10_update_ignores_ttl_witness :
    ((updateOpV1 witnessStoreC "GGGG2222" (JSNum.fin 3) (JSNum.fin 4) 90000).2 =
        Except.error UpdErr.invalidToken ↔ witnessStoreC "GGGG2222" = none) ∧
    (∃ sess1,
      (updateOpV1 witnessStoreC "GGGG2222" (JSNum.fin 3) (JSNum.fin 4) 90000).2 =
        Except.ok sess1 ∧
      (updateOpV1 witnessStoreC "GGGG2222" (JSNum.fin 3) (JSNum.fin 4) 90000).1
        "GGGG2222" = some sess1 ∧
      sess1.ts = 90000 ∧ simpleTtlExpiredV1 90000 sess1.ts = false) ∧
    simpleV1 (fun q => q) witnessStoreC "GGGG2222" 90000 = ("X05Y05", 200) ∧
    sweepV1 witnessStoreC 90000 "GGGG2222" =
      some (⟨JSNum.fin 1, JSNum.fin 2, 0, [], 0⟩ : Session) := by
  have h := claim_C10_update_ignores_ttl witnessStoreC "GGGG2222"
    (JSNum.fin 3) (JSNum.fin 4) 90000 (by decide)
  exact ⟨h.1, h.2.1 _ rfl rfl rfl, h.2.2.1 _ (fun q => q) rfl (by decide),
    h.2.2.2 _ rfl (by decide)⟩
